import Mathlib

/- Verification of the llm-chatbot embeddable widget core against its
   specification.  The embedding models three source components:

   * src/embed/src/sse-client.ts   (SSEClient: stream decoding, retry, abort)
   * src/embed/src/spo-chatbot.ts  (error classification / retry-last-message)
   * the markdown renderer module  (MarkdownRenderer: parse + sanitize)

   JavaScript strings are modelled as Lean String / List Char (one JS code
   unit = one Char for the ASCII protocol text involved); fetch, reads and
   timers are modelled by explicit outcome scripts; regular-expression
   replaces are modelled by direct left-to-right scanners that implement
   the concrete regexes appearing in the source. -/

namespace JsStr

/-- Whitespace class used by JS trim and the \s regex class
    (space, tab, newline, carriage return, vertical tab, form feed). -/
def jsIsSpace (c : Char) : Bool :=
  c = ' ' || c = '\t' || c = '\n' || c = '\r' || c = Char.ofNat 11 || c = Char.ofNat 12

/-- Word-character class \w of JS regexes. -/
def isWordChar (c : Char) : Bool :=
  c.isAlpha || c.isDigit || c = '_'

/-- Does the first list start with the second (String.prototype.startsWith)? -/
def listStartsWith : List Char → List Char → Bool
  | _, [] => true
  | [], _ :: _ => false
  | c :: cs, p :: ps => c = p && listStartsWith cs ps

/-- Case-insensitive variant of listStartsWith, for regexes with the i flag. -/
def listStartsWithCI : List Char → List Char → Bool
  | _, [] => true
  | [], _ :: _ => false
  | c :: cs, p :: ps => c.toLower = p.toLower && listStartsWithCI cs ps

/-- JS String.prototype.trim (both ends, jsIsSpace class). -/
def jsTrim (s : List Char) : List Char :=
  ((s.dropWhile jsIsSpace).reverse.dropWhile jsIsSpace).reverse

/-- Split on a single separator character, JS String.prototype.split
    semantics: split of the empty string is one empty field, a trailing
    separator yields a trailing empty field. -/
def splitOnCharAux (sep : Char) : List Char → List Char → List (List Char)
  | [], acc => [acc.reverse]
  | c :: cs, acc =>
    if c = sep then acc.reverse :: splitOnCharAux sep cs []
    else splitOnCharAux sep cs (c :: acc)

/-- Split a text into its newline-separated fields (s.split of a newline). -/
def splitLines (s : List Char) : List (List Char) :=
  splitOnCharAux '\n' s []

/-- Split on the pipe character (row.split of a pipe in the table parser). -/
def splitPipe (s : List Char) : List (List Char) :=
  splitOnCharAux '|' s []

/-- Leftmost occurrence of pat: returns the text before it and the text
    after it, or none if pat does not occur. -/
def findSub (pat : List Char) : List Char → Option (List Char × List Char)
  | [] => if pat.isEmpty then some ([], []) else none
  | c :: rest =>
    if listStartsWith (c :: rest) pat then some ([], (c :: rest).drop pat.length)
    else
      match findSub pat rest with
      | some (pre, post) => some (c :: pre, post)
      | none => none

/-- JS String.prototype.includes. -/
def containsSub (pat : List Char) : List Char → Bool
  | [] => pat.isEmpty
  | c :: rest => listStartsWith (c :: rest) pat || containsSub pat rest

/-- String-level view of containsSub. -/
def includes (s pat : String) : Bool :=
  containsSub pat.data s.data

/-- Generic one-pass global regex replace: at each position try to match;
    on a match emit the replacement and continue after the matched text
    (the replacement is not rescanned), otherwise copy one character and
    advance.  All patterns used match at least one character, so a fuel
    equal to the length of the text never runs out. -/
def scanRep (try1 : List Char → Option (List Char × List Char)) :
    Nat → List Char → List Char
  | 0, s => s
  | _ + 1, [] => []
  | fuel + 1, c :: rest =>
    match try1 (c :: rest) with
    | some (rep, post) => rep ++ scanRep try1 fuel post
    | none => c :: scanRep try1 fuel rest

def runScan (try1 : List Char → Option (List Char × List Char))
    (s : List Char) : List Char :=
  scanRep try1 s.length s

/-- Join fields with newlines (inverse of splitLines on well-formed input). -/
def joinNl : List (List Char) → List Char
  | [] => []
  | [l] => l
  | l :: ls => l ++ '\n' :: joinNl ls

/-- Apply a per-line rewrite to every newline-separated line; models a
    multiline-anchored regex whose matches are whole single lines. -/
def mapLines (f : List Char → List Char) (s : List Char) : List Char :=
  joinNl ((splitLines s).map f)

end JsStr

namespace SSE

open JsStr

/-- String-level startsWith used by the line dispatch in stream(). -/
def lineStartsWith (line pat : String) : Bool :=
  listStartsWith line.data pat.data

/-- Drop the first n characters (line.slice(n) for ASCII markers). -/
def strDrop (s : String) (n : Nat) : String :=
  String.mk (s.data.drop n)

/-- JS trim lifted to String (used on the event name). -/
def strTrim (s : String) : String :=
  String.mk (jsTrim s.data)

/-- The line splitting performed on the buffer: buffer.split of a newline,
    as a list of String fields. -/
def splitNl (s : String) : List String :=
  (splitLines s.data).map String.mk

/-- One pass of the per-chunk line loop of SSEClient.stream: scans the
    complete lines of a read, tracking currentEvent, and yields the
    frames (currentEvent, data) handed to handleEvent.  An event line
    updates currentEvent to the trimmed text after the marker; a data line
    emits a frame carrying the text after the marker and resets
    currentEvent to the message kind. -/
def processLines : List String → String → List (String × String)
  | [], _ => []
  | line :: rest, currentEvent =>
    if lineStartsWith line "event: " then
      processLines rest (strTrim (strDrop line 7))
    else if lineStartsWith line "data: " then
      (currentEvent, strDrop line 6) :: processLines rest "message"
    else
      processLines rest currentEvent

/-- One read iteration of the decode loop: append the chunk to the pending
    buffer, split on newlines, defer the final unterminated fragment to the
    next read, and scan the complete lines.  currentEvent is a variable
    declared inside the read loop in the source, so every chunk starts the
    scan from the message kind. -/
def chunkStep (buffer chunk : String) : List (String × String) × String :=
  let ls := splitNl (buffer ++ chunk)
  (processLines ls.dropLast "message", ls.getLastD "")

/-- Frames produced from a sequence of read chunks starting from a given
    pending buffer. -/
def decodeFramesFrom : List String → String → List (String × String)
  | [], _ => []
  | c :: cs, buf =>
    let step := chunkStep buf c
    step.1 ++ decodeFramesFrom cs step.2

/-- Frames dispatched by SSEClient.stream for a full sequence of reads
    (fresh empty buffer, as at the start of an attempt). -/
def decodeFrames (chunks : List String) : List (String × String) :=
  decodeFramesFrom chunks ""

/-- One handler invocation recorded during a stream call. -/
inductive HCall (γ : Type) where
  | onMessage (data : String)
  | onChart (chart : γ)
  | onDone
  | onError (data : String)
deriving DecidableEq

/-- SSEClient.handleEvent: dispatch one frame to the handlers.  The chart
    branch parses the payload with JSON.parse, modelled by the external
    parameter parseChart; a parse failure is swallowed and nothing is
    dispatched.  An event kind outside the four cases falls through the
    switch and dispatches nothing. -/
def handleEvent {γ : Type} (parseChart : String → Option γ)
    (event data : String) : List (HCall γ) :=
  if event = "message" then [HCall.onMessage data]
  else if event = "chart" then
    match parseChart data with
    | some c => [HCall.onChart c]
    | none => []
  else if event = "done" then [HCall.onDone]
  else if event = "error" then [HCall.onError data]
  else []

/-- The line loop with the inline handleEvent dispatch, as executed by
    stream(): the handler calls in order. -/
def processLinesCalls {γ : Type} (parseChart : String → Option γ) :
    List String → String → List (HCall γ)
  | [], _ => []
  | line :: rest, currentEvent =>
    if lineStartsWith line "event: " then
      processLinesCalls parseChart rest (strTrim (strDrop line 7))
    else if lineStartsWith line "data: " then
      handleEvent parseChart currentEvent (strDrop line 6) ++
        processLinesCalls parseChart rest "message"
    else
      processLinesCalls parseChart rest currentEvent

/-- Handler calls made while reading a chunk sequence from a given buffer. -/
def decodeCallsFrom {γ : Type} (parseChart : String → Option γ) :
    List String → String → List (HCall γ)
  | [], _ => []
  | c :: cs, buf =>
    let ls := splitNl (buf ++ c)
    processLinesCalls parseChart ls.dropLast "message" ++
      decodeCallsFrom parseChart cs (ls.getLastD "")

/-- Handler calls made over a full successful response body. -/
def decodeCalls {γ : Type} (parseChart : String → Option γ)
    (chunks : List String) : List (HCall γ) :=
  decodeCallsFrom parseChart chunks ""

/-- How reading a response body ends: the reader reports completion, the
    read rejects with a transport error, or the read rejects with the
    AbortError raised by the abort signal. -/
inductive ReadEnd where
  | normal
  | throwConnect
  | throwAbort
deriving DecidableEq

/-- One fetch response as observed by stream(): status flag and code, the
    diagnostic body text read on a non-ok status, whether a body stream is
    present, the chunks delivered by successive reads, and how the read
    loop ends. -/
structure Resp where
  ok : Bool
  status : Nat
  detail : String
  hasBody : Bool
  chunks : List String
  readEnd : ReadEnd
deriving DecidableEq

/-- Outcome of one fetch attempt: rejection with a connectivity error,
    rejection with AbortError, or a response. -/
inductive AttemptOutcome where
  | throwConnect
  | throwAbort
  | resp (r : Resp)
deriving DecidableEq

/-- Observable result of a stream() call: handler calls in order, backoff
    delays awaited (milliseconds, in order), and the number of fetch
    attempts performed. -/
structure RunResult (γ : Type) where
  calls : List (HCall γ)
  delays : List Nat
  fetches : Nat
deriving DecidableEq

def maxRetries : Nat := 3

/-- Message passed to onError when all retries are exhausted
    (please check your network connection). -/
def netFailMsg : String := "네트워크 연결을 확인해주세요."

/-- The retry for-loop of SSEClient.stream.  fuel counts the remaining
    loop iterations (maxRetries + 1 - attempt at every reachable call), so
    running out of fuel is the loop falling through, which invokes nothing.
    Each iteration: an abort flag already set returns silently; a fetch
    rejection with AbortError returns silently; any other rejection either
    reports netFailMsg on the last attempt or waits 2 ^ attempt seconds and
    retries; a non-ok response reports the status and diagnostic text and
    returns; a missing body reports and returns; otherwise the body chunks
    are decoded and dispatched, and the end of the read loop either returns
    (reader completion or AbortError) or is a transport failure handled
    like a fetch rejection, keeping the calls already dispatched. -/
def streamLoop {γ : Type} (parseChart : String → Option γ)
    (abortedAt : Nat → Bool) (net : Nat → AttemptOutcome) :
    Nat → Nat → RunResult γ
  | 0, _ => ⟨[], [], 0⟩
  | fuel + 1, attempt =>
    if abortedAt attempt then ⟨[], [], 0⟩
    else
      match net attempt with
      | AttemptOutcome.throwAbort => ⟨[], [], 1⟩
      | AttemptOutcome.throwConnect =>
        if attempt = maxRetries then ⟨[HCall.onError netFailMsg], [], 1⟩
        else
          let rest := streamLoop parseChart abortedAt net fuel (attempt + 1)
          ⟨rest.calls, 2 ^ attempt * 1000 :: rest.delays, rest.fetches + 1⟩
      | AttemptOutcome.resp r =>
        if r.ok = false then
          ⟨[HCall.onError ("HTTP " ++ toString r.status ++ ": " ++ r.detail)], [], 1⟩
        else if r.hasBody = false then
          ⟨[HCall.onError "No response body"], [], 1⟩
        else
          let calls := decodeCalls parseChart r.chunks
          match r.readEnd with
          | ReadEnd.normal => ⟨calls, [], 1⟩
          | ReadEnd.throwAbort => ⟨calls, [], 1⟩
          | ReadEnd.throwConnect =>
            if attempt = maxRetries then ⟨calls ++ [HCall.onError netFailMsg], [], 1⟩
            else
              let rest := streamLoop parseChart abortedAt net fuel (attempt + 1)
              ⟨calls ++ rest.calls, 2 ^ attempt * 1000 :: rest.delays, rest.fetches + 1⟩

/-- A full SSEClient.stream call: the loop from attempt 0 with one
    iteration of fuel per allowed attempt. -/
def stream {γ : Type} (parseChart : String → Option γ)
    (abortedAt : Nat → Bool) (net : Nat → AttemptOutcome) : RunResult γ :=
  streamLoop parseChart abortedAt net (maxRetries + 1) 0

end SSE

namespace SSE

/-- The inline dispatch of the line loop is the frame-by-frame dispatch of
    the decoded frame list, in order. -/
theorem processLinesCalls_eq {γ : Type} (pc : String → Option γ)
    (lines : List String) : ∀ cur : String,
    processLinesCalls pc lines cur =
      (processLines lines cur).flatMap (fun f => handleEvent pc f.1 f.2) := by
  induction lines with
  | nil => intro cur; simp [processLinesCalls, processLines]
  | cons line rest ih =>
    intro cur
    simp only [processLinesCalls, processLines]
    by_cases h1 : lineStartsWith line "event: "
    · simp [h1, ih]
    · by_cases h2 : lineStartsWith line "data: "
      · simp [h1, h2, ih, List.flatMap_cons]
      · simp [h1, h2, ih]

/-- The handler calls of a chunked read sequence are exactly the dispatch
    of its decoded frames, for any starting buffer. -/
theorem decodeCallsFrom_eq {γ : Type} (pc : String → Option γ)
    (chunks : List String) : ∀ buf : String,
    decodeCallsFrom pc chunks buf =
      (decodeFramesFrom chunks buf).flatMap (fun f => handleEvent pc f.1 f.2) := by
  induction chunks with
  | nil => intro buf; simp [decodeCallsFrom, decodeFramesFrom]
  | cons c cs ih =>
    intro buf
    simp [decodeCallsFrom, decodeFramesFrom, chunkStep, List.flatMap_append,
      processLinesCalls_eq, ih]

/-- C1: decoding is not chunking-invariant.  The byte sequence of an event
    line announcing the done kind followed by a data line, delivered as two
    reads split at the line boundary, dispatches a message-kind frame,
    while the same bytes in a single read dispatch a done-kind frame: the
    currentEvent variable is declared inside the read loop of
    SSEClient.stream and therefore resets at every read boundary. -/
theorem c1_chunk_boundary_divergence :
    decodeFrames ["event: done\n", "data: x\n"] = [("message", "x")] ∧
    decodeFrames ["event: done\ndata: x\n"] = [("done", "x")] ∧
    decodeFrames ["event: done\n", "data: x\n"] ≠
      decodeFrames ["event: done\ndata: x\n"] := by decide

/-- C3 (amended): dispatching a done or error frame does not terminate the
    read loop.  The handler calls of a stream body are the frame-by-frame
    dispatch of all of its decoded frames, with no truncation after a
    terminal frame; reading stops only at end of stream, on a transport
    failure, or on abort. -/
theorem c3_terminal_frames_do_not_stop_dispatch {γ : Type}
    (pc : String → Option γ) (chunks : List String) :
    decodeCalls pc chunks =
      (decodeFrames chunks).flatMap (fun f => handleEvent pc f.1 f.2) := by
  simp [decodeCalls, decodeFrames, decodeCallsFrom_eq]

/-- C3 (counterexample): after a done frame is dispatched from the first
    read, the stream keeps reading the next chunk and invokes onMessage;
    the claim that no further read occurs and no further handler is
    invoked after a terminal frame is false of the code. -/
theorem c3_counterexample :
    stream (fun _ => (none : Option Unit)) (fun _ => false)
      (fun _ => AttemptOutcome.resp
        ⟨true, 200, "", true, ["event: done\ndata: x\n", "data: y\n"], ReadEnd.normal⟩) =
      ⟨[HCall.onDone, HCall.onMessage "y"], [], 1⟩ := by decide

/-- C6: when every fetch attempt fails with a connectivity error and no
    cancellation is requested, stream performs 4 fetch attempts (the
    initial one plus exactly 3 retries), waits 1000, 2000 and 4000
    milliseconds before the successive retries, and invokes onError exactly
    once, with the connectivity-failure description. -/
theorem c6_retry_schedule {γ : Type} (pc : String → Option γ)
    (ab : Nat → Bool) (net : Nat → AttemptOutcome)
    (hab : ∀ i, ab i = false)
    (hnet : ∀ i, net i = AttemptOutcome.throwConnect) :
    stream pc ab net = ⟨[HCall.onError netFailMsg], [1000, 2000, 4000], 4⟩ := by
  simp [stream, streamLoop, hab, hnet, maxRetries]

/-- C6 (witness): the retry schedule evaluated on a concrete script of
    four consecutive connectivity failures. -/
theorem c6_retry_schedule_witness :
    stream (fun _ => (none : Option Unit)) (fun _ => false)
      (fun _ => AttemptOutcome.throwConnect) =
      ⟨[HCall.onError netFailMsg], [1000, 2000, 4000], 4⟩ :=
  c6_retry_schedule (fun _ => none) (fun _ => false)
    (fun _ => AttemptOutcome.throwConnect) (fun _ => rfl) (fun _ => rfl)

/-- C7: cancellation is silent and final.  If the abort flag is set before
    the first attempt, stream returns with no handler call, no delay and no
    fetch; if a fetch rejects with AbortError, the attempt returns with no
    handler call and no retry; if the read loop of a successful response
    ends with AbortError, the call returns with exactly the handler calls
    already dispatched from the received chunks, no onError and no retry. -/
theorem c7_cancellation :
    (∀ (γ : Type) (pc : String → Option γ) (ab : Nat → Bool)
      (net : Nat → AttemptOutcome), ab 0 = true →
      stream pc ab net = ⟨[], [], 0⟩) ∧
    (∀ (γ : Type) (pc : String → Option γ) (ab : Nat → Bool)
      (net : Nat → AttemptOutcome) (fuel attempt : Nat),
      ab attempt = false → net attempt = AttemptOutcome.throwAbort →
      streamLoop pc ab net (fuel + 1) attempt = ⟨[], [], 1⟩) ∧
    (∀ (γ : Type) (pc : String → Option γ) (ab : Nat → Bool)
      (net : Nat → AttemptOutcome) (fuel attempt : Nat) (r : Resp),
      ab attempt = false → net attempt = AttemptOutcome.resp r →
      r.ok = true → r.hasBody = true → r.readEnd = ReadEnd.throwAbort →
      streamLoop pc ab net (fuel + 1) attempt = ⟨decodeCalls pc r.chunks, [], 1⟩) := by
  refine ⟨?_, ?_, ?_⟩
  · intro γ pc ab net h
    simp [stream, streamLoop, maxRetries, h]
  · intro γ pc ab net fuel attempt h1 h2
    simp [streamLoop, h1, h2]
  · intro γ pc ab net fuel attempt r h1 h2 h3 h4 h5
    simp [streamLoop, h1, h2, h3, h4, h5]

/-- C7 (witness): the three cancellation outcomes evaluated on concrete
    scripts: abort flag already set, AbortError from fetch, and AbortError
    at a read after one message frame was dispatched. -/
theorem c7_cancellation_witness :
    stream (fun _ => (none : Option Unit)) (fun _ => true)
      (fun _ => AttemptOutcome.throwConnect) = ⟨[], [], 0⟩ ∧
    streamLoop (fun _ => (none : Option Unit)) (fun _ => false)
      (fun _ => AttemptOutcome.throwAbort) (3 + 1) 0 = ⟨[], [], 1⟩ ∧
    streamLoop (fun _ => (none : Option Unit)) (fun _ => false)
      (fun _ => AttemptOutcome.resp ⟨true, 200, "", true, ["data: a\n"], ReadEnd.throwAbort⟩)
      (3 + 1) 0 = ⟨[HCall.onMessage "a"], [], 1⟩ := by
  refine ⟨c7_cancellation.1 Unit _ _ _ rfl,
    c7_cancellation.2.1 Unit _ _ _ 3 0 rfl rfl, ?_⟩
  have h := c7_cancellation.2.2 Unit (fun _ => none) (fun _ => false)
    (fun _ => AttemptOutcome.resp ⟨true, 200, "", true, ["data: a\n"], ReadEnd.throwAbort⟩)
    3 0 ⟨true, 200, "", true, ["data: a\n"], ReadEnd.throwAbort⟩ rfl rfl rfl rfl rfl
  rw [h]
  decide

/-- C9: a decoded frame whose event kind is none of message, chart, done
    or error invokes no handler, and its presence anywhere in the frame
    sequence leaves the dispatch of the surrounding frames unchanged. -/
theorem c9_unknown_event_ignored {γ : Type} (pc : String → Option γ)
    (ev d : String) (fs1 fs2 : List (String × String))
    (h1 : ev ≠ "message") (h2 : ev ≠ "chart") (h3 : ev ≠ "done")
    (h4 : ev ≠ "error") :
    handleEvent pc ev d = [] ∧
    (fs1 ++ (ev, d) :: fs2).flatMap (fun f => handleEvent pc f.1 f.2) =
      fs1.flatMap (fun f => handleEvent pc f.1 f.2) ++
        fs2.flatMap (fun f => handleEvent pc f.1 f.2) := by
  have he : handleEvent pc ev d = [] := by simp [handleEvent, h1, h2, h3, h4]
  exact ⟨he, by simp [List.flatMap_append, List.flatMap_cons, he]⟩

/-- C9 (witness): a ping-kind frame between a message frame and a done
    frame dispatches nothing and leaves their dispatch unchanged. -/
theorem c9_unknown_event_ignored_witness :
    handleEvent (fun _ => (none : Option Unit)) "ping" "d" = [] ∧
    ([("message", "a")] ++ ("ping", "d") :: [("done", "")]).flatMap
        (fun f => handleEvent (fun _ => (none : Option Unit)) f.1 f.2) =
      [("message", "a")].flatMap
          (fun f => handleEvent (fun _ => (none : Option Unit)) f.1 f.2) ++
        [("done", "")].flatMap
          (fun f => handleEvent (fun _ => (none : Option Unit)) f.1 f.2) :=
  c9_unknown_event_ignored (fun _ => none) "ping" "d" _ _
    (by decide) (by decide) (by decide) (by decide)

end SSE

namespace Chatbot

open JsStr

/-- Failure observed by a REST call: an ApiError carrying the HTTP status
    thrown by ApiClient.request on a non-ok response, or any other thrown
    value (network failure). -/
inductive ApiFailure where
  | apiError (status : Nat) (detail : String)
  | other
deriving DecidableEq

/-- The SpoChatbot fields the error paths read and write: the current
    error message, the retained failed user text, and whether the input
    controls are disabled. -/
structure UiState where
  error : Option String
  lastFailedMessage : Option String
  inputDisabled : Bool
deriving DecidableEq

/-- Externally visible actions of the controller: an error banner with or
    without a retry button, a session-creation request (initSession), the
    user message echoed into the transcript, and a streaming turn request
    submitted to SSEClient.stream. -/
inductive Effect where
  | showError (message : String) (hasRetry : Bool)
  | requestSession
  | addUserMessage (message : String)
  | streamRequest (message : String) (context_type : String)
      (context : Option (List (String × String)))
deriving DecidableEq

/-- Authentication has expired, please log in again. -/
def msg401 : String := "인증이 만료되었습니다. 다시 로그인해주세요."

/-- Access permissions are insufficient. -/
def msg403 : String := "접근 권한이 부족합니다."

/-- Server error, please try again shortly. -/
def msgServer : String := "서버 오류입니다. 잠시 후 다시 시도해주세요."

/-- Please check your network connection. -/
def msgNetwork : String := "네트워크 연결을 확인해주세요."

/-- The session has expired, please press the reset button. -/
def msgSession410 : String := "세션이 만료되었습니다. 초기화 버튼을 눌러주세요."

/-- An error occurred while responding. -/
def msgStreamGeneric : String := "응답 중 오류가 발생했습니다."

/-- SpoChatbot.handleApiError: classify a REST-call failure.  A 401 or 403
    status surfaces a non-retryable message and disables input; a 410
    status silently re-runs initSession, surfacing nothing; any other
    status, and any non-ApiError failure, surfaces a retryable message. -/
def handleApiError (st : UiState) : ApiFailure → UiState × List Effect
  | ApiFailure.apiError 401 _ =>
    ({ st with error := some msg401, inputDisabled := true },
      [Effect.showError msg401 false])
  | ApiFailure.apiError 403 _ =>
    ({ st with error := some msg403, inputDisabled := true },
      [Effect.showError msg403 false])
  | ApiFailure.apiError 410 _ => (st, [Effect.requestSession])
  | ApiFailure.apiError _ _ =>
    ({ st with error := some msgServer }, [Effect.showError msgServer true])
  | ApiFailure.other =>
    ({ st with error := some msgNetwork }, [Effect.showError msgNetwork true])

/-- SpoChatbot.handleStreamError: classify the description string passed
    to onError by SSEClient.  A description containing 401 surfaces the
    auth message and disables input; otherwise one containing 410 surfaces
    the session-expired message (no retry button and no session
    re-creation); anything else surfaces the generic retryable message. -/
def handleStreamError (st : UiState) (error : String) : UiState × List Effect :=
  if includes error "401" then
    ({ st with error := some msg401, inputDisabled := true },
      [Effect.showError msg401 false])
  else if includes error "410" then
    ({ st with error := some msgSession410 },
      [Effect.showError msgSession410 false])
  else
    ({ st with error := some msgStreamGeneric },
      [Effect.showError msgStreamGeneric true])

/-- ChatUI.endStreaming re-enables the input controls. -/
def endStreaming (st : UiState) : UiState :=
  { st with inputDisabled := false }

/-- ChatUI.startStreaming disables the input controls. -/
def startStreaming (st : UiState) : UiState :=
  { st with inputDisabled := true }

/-- The onError handler installed by handleSend: end the streaming UI,
    retain the failed user text, then classify the error description. -/
def onStreamError (st : UiState) (text : String) (error : String) :
    UiState × List Effect :=
  handleStreamError { endStreaming st with lastFailedMessage := some text } error

/-- SpoChatbot.buildChatRequest: the turn submission carries the message
    verbatim and the configured context type; the context map is included
    only when it is non-empty. -/
def buildChatRequest (contextType : String)
    (contextParams : List (String × String)) (message : String) : Effect :=
  Effect.streamRequest message contextType
    (if contextParams.isEmpty then none else some contextParams)

/-- SpoChatbot.handleSend up to the stream invocation: clear the error and
    the retained failed text, append the user message, start the streaming
    UI, and submit the built request to SSEClient.stream. -/
def handleSend (contextType : String) (contextParams : List (String × String))
    (st : UiState) (text : String) : UiState × List Effect :=
  (startStreaming { st with error := none, lastFailedMessage := none },
    [Effect.addUserMessage text,
      buildChatRequest contextType contextParams text])

/-- SpoChatbot.handleRetry: when a failed text is retained (JS truthiness:
    non-null and non-empty), clear the error and the retained text and
    re-enter handleSend with that text; otherwise do nothing. -/
def handleRetry (contextType : String) (contextParams : List (String × String))
    (st : UiState) : UiState × List Effect :=
  match st.lastFailedMessage with
  | some m =>
    if m = "" then (st, [])
    else handleSend contextType contextParams
      { st with error := none, lastFailedMessage := none } m
  | none => (st, [])

end Chatbot

namespace Chatbot

/-- C4 (counterexample): a 410 failure during a streaming turn is not
    transparent.  The onError path surfaces the session-expired banner to
    the embedding surface and does not request a new session, refuting the
    claim that a 410 on every call silently re-creates the session with no
    surfaced error. -/
theorem c4_counterexample :
    (onStreamError ⟨none, none, true⟩ "question" "HTTP 410: Gone").2 =
      [Effect.showError msgSession410 false] ∧
    Effect.requestSession ∉
      (onStreamError ⟨none, none, true⟩ "question" "HTTP 410: Gone").2 := by decide

/-- C4 (amended): only a 410 failure of a REST call (session creation) is
    transparent: handleApiError re-requests a session and surfaces
    nothing.  A 410 during a streaming turn surfaces the session-expired
    message with no retry button and requests no session. -/
theorem c4_session_expired_paths (st : UiState) (d e : String)
    (h1 : JsStr.includes e "401" = false) (h2 : JsStr.includes e "410" = true) :
    handleApiError st (ApiFailure.apiError 410 d) = (st, [Effect.requestSession]) ∧
    handleStreamError st e =
      ({ st with error := some msgSession410 },
        [Effect.showError msgSession410 false]) :=
  ⟨rfl, by simp [handleStreamError, h1, h2]⟩

/-- C4 (witness): the two 410 paths evaluated on a concrete state and a
    concrete HTTP 410 error description. -/
theorem c4_session_expired_paths_witness :
    handleApiError ⟨none, none, false⟩ (ApiFailure.apiError 410 "Gone") =
      (⟨none, none, false⟩, [Effect.requestSession]) ∧
    handleStreamError ⟨none, none, false⟩ "HTTP 410: Gone" =
      (⟨some msgSession410, none, false⟩,
        [Effect.showError msgSession410 false]) :=
  c4_session_expired_paths ⟨none, none, false⟩ "Gone" "HTTP 410: Gone"
    (by decide) (by decide)

/-- C5 (counterexample): a 403 failure during a streaming turn is not
    classified as forbidden.  The description HTTP 403 contains neither
    401 nor 410, so the onError path surfaces the generic retryable
    message with a retry button and leaves input enabled, refuting the
    claim that a 403 on every call locks input with no retry affordance. -/
theorem c5_counterexample :
    (onStreamError ⟨none, none, true⟩ "question" "HTTP 403: Forbidden").2 =
      [Effect.showError msgStreamGeneric true] ∧
    (onStreamError ⟨none, none, true⟩ "question" "HTTP 403: Forbidden").1.inputDisabled
      = false := by decide

/-- C5 (amended): only a 403 failure of a REST call (session creation) is
    classified as forbidden: non-retryable message and input disabled.  A
    403 during a streaming turn falls to the generic branch: retryable
    message, input state unchanged by the classification. -/
theorem c5_forbidden_paths (st : UiState) (d e : String)
    (h1 : JsStr.includes e "401" = false) (h2 : JsStr.includes e "410" = false) :
    handleApiError st (ApiFailure.apiError 403 d) =
      ({ st with error := some msg403, inputDisabled := true },
        [Effect.showError msg403 false]) ∧
    handleStreamError st e =
      ({ st with error := some msgStreamGeneric },
        [Effect.showError msgStreamGeneric true]) :=
  ⟨rfl, by simp [handleStreamError, h1, h2]⟩

/-- C5 (witness): the two 403 paths evaluated on a concrete state and a
    concrete HTTP 403 error description. -/
theorem c5_forbidden_paths_witness :
    handleApiError ⟨none, none, false⟩ (ApiFailure.apiError 403 "Forbidden") =
      (⟨some msg403, none, true⟩, [Effect.showError msg403 false]) ∧
    handleStreamError ⟨none, none, false⟩ "HTTP 403: Forbidden" =
      (⟨some msgStreamGeneric, none, false⟩,
        [Effect.showError msgStreamGeneric true]) :=
  c5_forbidden_paths ⟨none, none, false⟩ "Forbidden" "HTTP 403: Forbidden"
    (by decide) (by decide)

/-- C8: when a failed user text is retained, handleRetry re-enters
    handleSend with exactly that string, so the submitted request carries
    it byte-identically through the same path as an original submission;
    the retained text is cleared by the retry, and every fresh handleSend
    clears it as its first action. -/
theorem c8_retry_resubmits (ct : String) (cp : List (String × String))
    (st : UiState) (m : String)
    (hm : st.lastFailedMessage = some m) (hne : m ≠ "") :
    handleRetry ct cp st =
      handleSend ct cp { st with error := none, lastFailedMessage := none } m ∧
    (handleRetry ct cp st).2 =
      [Effect.addUserMessage m, buildChatRequest ct cp m] ∧
    (handleRetry ct cp st).1.lastFailedMessage = none ∧
    (∀ (st' : UiState) (t : String),
      (handleSend ct cp st' t).1.lastFailedMessage = none) := by
  have h : handleRetry ct cp st =
      handleSend ct cp { st with error := none, lastFailedMessage := none } m := by
    simp [handleRetry, hm, hne]
  refine ⟨h, ?_, ?_, fun st' t => rfl⟩
  · rw [h]; rfl
  · rw [h]; rfl

/-- C8 (witness): retry after a server error on the concrete text hello
    re-submits hello and clears the retained text. -/
theorem c8_retry_resubmits_witness :
    handleRetry "badminton" [] ⟨some msgServer, some "hello", false⟩ =
      handleSend "badminton" [] ⟨none, none, false⟩ "hello" ∧
    (handleRetry "badminton" [] ⟨some msgServer, some "hello", false⟩).2 =
      [Effect.addUserMessage "hello", buildChatRequest "badminton" [] "hello"] ∧
    (handleRetry "badminton" [] ⟨some msgServer, some "hello", false⟩).1.lastFailedMessage
      = none ∧
    (∀ (st' : UiState) (t : String),
      (handleSend "badminton" [] st' t).1.lastFailedMessage = none) :=
  c8_retry_resubmits "badminton" [] ⟨some msgServer, some "hello", false⟩ "hello"
    rfl (by decide)

end Chatbot

namespace MD

open JsStr

/-- The fixed allow-list of element kinds kept by sanitize. -/
def ALLOWED_TAGS : List String :=
  ["h1", "h2", "h3", "h4", "p", "strong", "em",
   "ul", "ol", "li", "table", "thead", "tbody",
   "tr", "th", "td", "pre", "code", "br"]

/-- Replace every occurrence of one character by a replacement text. -/
def replaceChar (c : Char) (rep : List Char) : List Char → List Char
  | [] => []
  | x :: xs =>
    if x = c then rep ++ replaceChar c rep xs
    else x :: replaceChar c rep xs

/-- MarkdownRenderer.escapeHtml: the four sequential global replaces, in
    source order (ampersand first so later entities are not re-escaped). -/
def escapeHtml (s : List Char) : List Char :=
  replaceChar '"' "&quot;".data
    (replaceChar (Char.ofNat 62) "&gt;".data
      (replaceChar '<' "&lt;".data
        (replaceChar '&' "&amp;".data s)))

/-- The backtick character, kept out of character-literal syntax. -/
def backquote : Char := "`".data.headD ' '

/-- The fenced code-block regex: three backticks, a greedy run of word
    characters (the language tag), a literal newline, the lazy body up to
    the next three backticks.  Replacement wraps the trimmed, escaped body
    in pre and code elements.  If the run of word characters is not
    followed by a newline, or no closing fence exists, there is no match
    at this position. -/
def tryCodeBlock (s : List Char) : Option (List Char × List Char) :=
  if listStartsWith s "```".data then
    let t := s.drop 3
    match t.dropWhile isWordChar with
    | c :: rest =>
      if c = '\n' then
        match findSub "```".data rest with
        | some (code, post) =>
          some ("<pre><code>".data ++ escapeHtml (jsTrim code) ++
            "</code></pre>".data, post)
        | none => none
      else none
    | [] => none
  else none

/-- The inline-code regex: a backtick, one or more non-backtick
    characters, a backtick; the contents are escaped. -/
def tryInlineCode (s : List Char) : Option (List Char × List Char) :=
  match s with
  | c :: rest =>
    if c = backquote then
      let content := rest.takeWhile (fun ch => !(ch = backquote))
      match rest.dropWhile (fun ch => !(ch = backquote)) with
      | _ :: post =>
        if content.isEmpty then none
        else some ("<code>".data ++ escapeHtml content ++ "</code>".data, post)
      | [] => none
    else none
  | [] => none

/-- One multiline-anchored header rewrite: a line that is the marker
    followed by at least one character becomes the wrapped heading. -/
def headerLine (marker openT closeT : List Char) (l : List Char) : List Char :=
  if listStartsWith l marker && marker.length < l.length then
    openT ++ l.drop marker.length ++ closeT
  else l

/-- The four header rewrites of parse, in source order (deepest first). -/
def parseHeaders (s : List Char) : List Char :=
  let s1 := mapLines (headerLine "#### ".data "<h4>".data "</h4>".data) s
  let s2 := mapLines (headerLine "### ".data "<h3>".data "</h3>".data) s1
  let s3 := mapLines (headerLine "## ".data "<h2>".data "</h2>".data) s2
  mapLines (headerLine "# ".data "<h1>".data "</h1>".data) s3

/-- Lazy scan for the closing double asterisk of the bold regex: at least
    one content character, none of them a newline, up to the earliest
    closing pair. -/
def boldScan : List Char → Option (List Char × List Char)
  | [] => none
  | c :: rest =>
    if c = '\n' then none
    else if listStartsWith rest "**".data then some ([c], rest.drop 2)
    else
      match boldScan rest with
      | some (content, post) => some (c :: content, post)
      | none => none

/-- The bold regex: double asterisk, lazy non-empty single-line content,
    double asterisk, wrapped in a strong element (content verbatim). -/
def tryBold (s : List Char) : Option (List Char × List Char) :=
  if listStartsWith s "**".data then
    match boldScan (s.drop 2) with
    | some (content, post) =>
      some ("<strong>".data ++ content ++ "</strong>".data, post)
    | none => none
  else none

/-- Lazy scan for the closing asterisk of the italic regex. -/
def italScan : List Char → Option (List Char × List Char)
  | [] => none
  | c :: rest =>
    if c = '\n' then none
    else
      match rest with
      | r :: post =>
        if r = '*' then some ([c], post)
        else
          match italScan rest with
          | some (content, post2) => some (c :: content, post2)
          | none => none
      | [] => none

/-- The italic regex: asterisk, lazy non-empty single-line content,
    asterisk, wrapped in an em element. -/
def tryItal (s : List Char) : Option (List Char × List Char) :=
  match s with
  | c :: rest =>
    if c = '*' then
      match italScan rest with
      | some (content, post) =>
        some ("<em>".data ++ content ++ "</em>".data, post)
      | none => none
    else none
  | [] => none

end MD

namespace MD

open JsStr

/-- Longest leading run of lines satisfying p, and the remaining lines. -/
def takeRun (p : List Char → Bool) : List (List Char) → List (List Char) × List (List Char)
  | [] => ([], [])
  | l :: ls =>
    if p l then
      let r := takeRun p ls
      (l :: r.1, r.2)
    else ([], l :: ls)

/-- A multiline-anchored block regex over whole lines, one line or more,
    each trailing newline included in the match: scan the lines; a maximal
    run of matching lines is handed to mk; a some result replaces the
    whole block including the newline separating it from the next line; a
    none result stands for the replacer returning the block unchanged.
    Fuel is the number of lines, consumed one or more per step. -/
def groupLines (p : List Char → Bool) (mk : List (List Char) → Option (List Char)) :
    Nat → List (List Char) → List Char
  | 0, ls => joinNl ls
  | _ + 1, [] => []
  | fuel + 1, l :: ls =>
    if p l then
      let run := takeRun p (l :: ls)
      match mk run.1 with
      | some html => html ++ groupLines p mk fuel run.2
      | none =>
        joinNl run.1 ++
          (if run.2.isEmpty then [] else '\n' :: groupLines p mk fuel run.2)
    else
      l ++ (if ls.isEmpty then [] else '\n' :: groupLines p mk fuel ls)

/-- A line the table block regex accepts: a pipe, one or more characters,
    a pipe. -/
def isTableLine (l : List Char) : Bool :=
  l.length ≥ 3 && l.head? = some '|' && l.getLast? = some '|'

/-- Character class of the separator-row regex between its outer pipes. -/
def isSepChar (c : Char) : Bool :=
  jsIsSpace c || c = '-' || c = ':' || c = '|'

/-- The separator-row test of parseTables. -/
def isSeparatorRow (l : List Char) : Bool :=
  l.length ≥ 3 && l.head? = some '|' && l.getLast? = some '|' &&
    ((l.drop 1).dropLast.all isSepChar)

/-- Cells of a row: split on pipes, dropping the fields before the first
    and after the last pipe (row.split.slice of the source). -/
def parseRowCells (l : List Char) : List (List Char) :=
  ((splitPipe l).drop 1).dropLast

/-- One table row: each trimmed cell wrapped in the given cell tag, the
    row wrapped in a tr element. -/
def parseRow (openT closeT : List Char) (l : List Char) : List Char :=
  "<tr>".data ++
    ((parseRowCells l).map (fun c => openT ++ jsTrim c ++ closeT)).flatten ++
    "</tr>".data

/-- The replacement body of parseTables.  The matched block consists of
    table lines, so the trim and the truthiness filter of the source keep
    exactly the matched lines as rows.  Fewer than two rows, or no
    separator row, leaves the block unchanged. -/
def tableBlockHtml (rows : List (List Char)) : Option (List Char) :=
  if rows.length < 2 then none
  else
    match rows.findIdx? isSeparatorRow with
    | none => none
    | some i =>
      some ("<table><thead>".data ++
        ((rows.take i).map (parseRow "<th>".data "</th>".data)).flatten ++
        "</thead><tbody>".data ++
        ((rows.drop (i + 1)).map (parseRow "<td>".data "</td>".data)).flatten ++
        "</tbody></table>".data)

/-- MarkdownRenderer.parseTables. -/
def parseTables (s : List Char) : List Char :=
  groupLines isTableLine tableBlockHtml (splitLines s).length (splitLines s)

/-- A line the unordered-list regex accepts: a dash, a space, one or more
    characters. -/
def isUlLine (l : List Char) : Bool :=
  listStartsWith l "- ".data && l.length ≥ 3

/-- The unordered-list replacement: each line with the two marker
    characters removed becomes a list item. -/
def ulBlockHtml (rows : List (List Char)) : Option (List Char) :=
  some ("<ul>".data ++
    (rows.map (fun l => "<li>".data ++ l.drop 2 ++ "</li>".data)).flatten ++
    "</ul>".data)

/-- A line the ordered-list regex accepts: one or more digits, a dot, a
    space, one or more characters. -/
def isOlLine (l : List Char) : Bool :=
  (l.takeWhile Char.isDigit).length ≥ 1 &&
    listStartsWith (l.dropWhile Char.isDigit) ". ".data &&
    (l.dropWhile Char.isDigit).length ≥ 3

/-- The ordered-list replacement: each line with its numeric marker, dot
    and space removed becomes a list item. -/
def olBlockHtml (rows : List (List Char)) : Option (List Char) :=
  some ("<ol>".data ++
    (rows.map (fun l => "<li>".data ++ (l.dropWhile Char.isDigit).drop 2 ++ "</li>".data)).flatten ++
    "</ol>".data)

/-- MarkdownRenderer.parseLists: unordered blocks first, then ordered. -/
def parseLists (s : List Char) : List Char :=
  let s1 := groupLines isUlLine ulBlockHtml (splitLines s).length (splitLines s)
  groupLines isOlLine olBlockHtml (splitLines s1).length (splitLines s1)

/-- The paragraph-break regex: two or more consecutive newlines (greedy)
    become a paragraph boundary. -/
def tryParaBreak (s : List Char) : Option (List Char × List Char) :=
  match s with
  | a :: b :: rest =>
    if a = '\n' && b = '\n' then
      some ("</p><p>".data, rest.dropWhile (fun c => c = '\n'))
    else none
  | _ => none

/-- The remaining single newlines become br elements. -/
def tryBr (s : List Char) : Option (List Char × List Char) :=
  match s with
  | c :: rest => if c = '\n' then some ("<br>".data, rest) else none
  | [] => none

/-- MarkdownRenderer.parse: the full structural pipeline in source order,
    with the outer paragraph wrapper added when the result does not start
    with an angle bracket. -/
def parse (md : List Char) : List Char :=
  let s1 := runScan tryCodeBlock md
  let s2 := runScan tryInlineCode s1
  let s3 := parseHeaders s2
  let s4 := runScan tryBold s3
  let s5 := runScan tryItal s4
  let s6 := parseTables s5
  let s7 := parseLists s6
  let s8 := runScan tryParaBreak s7
  let s9 := runScan tryBr s8
  if s9.head? = some '<' then s9 else "<p>".data ++ s9 ++ "</p>".data

/-- Tag-name character class of the tag-scrubbing regex. -/
def isTagNameChar (c : Char) : Bool :=
  c.isAlpha || c.isDigit

/-- The tag-scrubbing regex of sanitize: an angle bracket, an optional
    slash, a letter then letters or digits (the captured name), a word
    boundary (failing only before an underscore, the one word character
    outside the name class), any non-closing characters, the closing
    bracket.  A name on the allow-list (compared lowercased) keeps the
    whole match, any other name deletes it. -/
def tryTag (s : List Char) : Option (List Char × List Char) :=
  match s with
  | c0 :: rest0 =>
    if c0 = '<' then
      let slash := rest0.headD ' ' = '/'
      let body := if slash then rest0.drop 1 else rest0
      match body with
      | c :: r =>
        if c.isAlpha then
          let name := c :: r.takeWhile isTagNameChar
          let afterName := r.dropWhile isTagNameChar
          if afterName.headD ' ' = '_' then none
          else
            let attrs := afterName.takeWhile (fun ch => !(ch = Char.ofNat 62))
            match afterName.dropWhile (fun ch => !(ch = Char.ofNat 62)) with
            | _ :: post =>
              let matched := '<' :: ((if slash then ['/'] else []) ++ name ++
                attrs ++ [Char.ofNat 62])
              if ALLOWED_TAGS.contains (String.mk (name.map Char.toLower)) then
                some (matched, post)
              else
                some ([], post)
            | [] => none
        else none
      | [] => none
    else none
  | [] => none

/-- The event-handler attribute regex of sanitize, case-insensitive: a
    whitespace character, the letters o and n, one or more word
    characters, optional whitespace, an equals sign, optional whitespace,
    a quote of either kind, any characters that are not quotes of either
    kind, a quote of either kind.  The match is deleted. -/
def tryOnAttr (s : List Char) : Option (List Char × List Char) :=
  match s with
  | c :: rest =>
    if jsIsSpace c then
      match rest with
      | o :: n :: r2 =>
        if o.toLower = 'o' && n.toLower = 'n' then
          let w := r2.takeWhile isWordChar
          if w.length ≥ 1 then
            match (r2.dropWhile isWordChar).dropWhile jsIsSpace with
            | e :: r3 =>
              if e = '=' then
                match r3.dropWhile jsIsSpace with
                | q :: r5 =>
                  if q = '"' || q = '\'' then
                    match r5.dropWhile (fun ch => !(ch = '"') && !(ch = '\'')) with
                    | _ :: post => some ([], post)
                    | [] => none
                  else none
                | [] => none
              else none
            | [] => none
          else none
        else none
      | _ => none
    else none
  | [] => none

/-- The script-scheme regex of sanitize, case-insensitive: the letters of
    javascript, optional whitespace, a colon.  The match is deleted. -/
def tryJsProto (s : List Char) : Option (List Char × List Char) :=
  if listStartsWithCI s "javascript".data then
    match (s.drop 10).dropWhile jsIsSpace with
    | c :: post => if c = ':' then some ([], post) else none
    | [] => none
  else none

/-- MarkdownRenderer.sanitize: scrub disallowed tags, then quoted
    event-handler attributes, then the script scheme, in source order. -/
def sanitize (s : List Char) : List Char :=
  runScan tryJsProto (runScan tryOnAttr (runScan tryTag s))

/-- MarkdownRenderer.render: the falsy guard returns the empty string
    unchanged; otherwise parse then sanitize. -/
def render (markdown : String) : String :=
  if markdown = "" then ""
  else String.mk (sanitize (parse markdown.data))

end MD

namespace MD

/-- C2 (counterexample): the scrubbing is not unconditional.  An
    event-handler attribute written without quotes inside an allowed tag
    is kept verbatim by render: the tag pass keeps the whole allowed-tag
    match including its attributes, and the handler-attribute pass only
    matches quoted values, so the output still contains onclick= followed
    by script text. -/
theorem c2_counterexample :
    render "<p onclick=alert(1)>hi</p>" = "<p onclick=alert(1)>hi</p>" ∧
    JsStr.containsSub "onclick=".data
      (render "<p onclick=alert(1)>hi</p>").data = true := by decide

/-- C2 (amended): the scrubbing is pattern-based.  A whitespace-preceded
    event-handler attribute with a quoted value is removed, and a literal
    occurrence of the script scheme is removed, but an event-handler
    attribute with an unquoted value inside an allowed tag survives
    render unchanged. -/
theorem c2_scrubbing_is_pattern_based :
    render "<p onclick=\"alert(1)\">hi</p>" = "<p>hi</p>" ∧
    render "javascript:x" = "<p>x</p>" ∧
    render "<p onclick=alert(1)>hi</p>" = "<p onclick=alert(1)>hi</p>" := by decide

/-- C10: render of the empty string is the empty string: the falsy guard
    returns before the paragraph wrapper can be produced. -/
theorem c10_render_empty : render "" = "" := rfl

end MD
